import Mathlib

/-!
Shallow embedding of the Windows backend of the same-file crate
(src/win.rs) and proofs of its specified properties.

Modelling conventions:
* Raw OS handles are natural numbers; a `FileT` is an open file resource
  identified by its raw handle.
* Machine integers are naturals reduced modulo the width where the source
  converts between widths: the DWORD (u32) fields of
  BY_HANDLE_FILE_INFORMATION are taken modulo 2^32 where the source widens
  them with an `as u64` cast.
* The operating system is modelled by a trace of responses to
  GetFileInformationByHandle queries: each call to `information` consumes
  exactly one response from the front of the trace, mirroring the single
  syscall in the source.
* Rust object identity (std::ptr::eq on two references) is modelled by an
  `addr` field on `Handle`: two live Rust objects are the identical object
  exactly when their addresses coincide.
* Hashing is modelled by the stream of words a Rust Hasher would receive:
  the derived Hash for Option writes the discriminant (0 for None, 1 for
  Some) followed by the fields of the payload.
* Destructor effects are modelled by lists of OS calls issued; a value of
  type `FileT` closed by its destructor would issue a closeHandle call,
  while File::into_raw_handle detaches the raw handle and issues none.
-/

namespace SameFile

/-- An open file resource, identified by its raw OS handle
(std::fs::File in the source). -/
structure FileT where
  raw : Nat
deriving DecidableEq

/-- The identity key: struct Key { volume: u64, index: u64 }
from src/win.rs lines 62-66. Structural equality, as derived in the
source by #[derive(Eq, PartialEq)]. -/
structure Key where
  volume : Nat
  index : Nat
deriving DecidableEq

/-- The fields of BY_HANDLE_FILE_INFORMATION read by winutil::information.
Each is a DWORD (u32) in the Windows API; arbitrary naturals here, reduced
modulo 2^32 at the point of the widening cast. -/
structure FileInformation where
  dwVolumeSerialNumber : Nat
  nFileIndexHigh : Nat
  nFileIndexLow : Nat

/-- The modulus of a 32-bit machine integer. -/
def U32 : Nat := 2 ^ 32

/-- One response of the operating system to a
GetFileInformationByHandle query: either the file information, or the
error code that io::Error::last_os_error would report. -/
abbrev QueryResult := Except Nat FileInformation

/-- The key packing of the Ok branch of winutil::information
(src/win.rs lines 265-268): volume is the zero-extended volume serial
number, index is (nFileIndexHigh as u64) << 32 | (nFileIndexLow as u64). -/
def mkKey (info : FileInformation) : Key :=
  ⟨info.dwVolumeSerialNumber % U32,
    ((info.nFileIndexHigh % U32) <<< 32) ||| (info.nFileIndexLow % U32)⟩

/-- Models winutil::information (src/win.rs lines 259-271): issues exactly
one GetFileInformationByHandle query, consuming the front of the OS trace;
on failure returns the OS error code, on success packs the key. The empty
trace has no real counterpart (a syscall always yields a response) and is
mapped to an error. -/
def information : List QueryResult → Except Nat Key × List QueryResult
  | [] => (Except.error 0, [])
  | Except.error e :: rest => (Except.error e, rest)
  | Except.ok info :: rest => (Except.ok (mkKey info), rest)

/-- Models winutil::Handle (src/win.rs line 171): an owned open file. -/
structure WHandle where
  file : FileT
deriving DecidableEq

/-- Models winutil::HandleRef (src/win.rs line 213): an Option wrapping an
open file, emptied by take() in Drop and IntoRawHandle. -/
structure HandleRef where
  file : Option FileT
deriving DecidableEq

/-- The two variants of HandleKind (src/win.rs lines 54-60). -/
inductive HandleKind where
  | Owned : WHandle → HandleKind
  | Borrowed : HandleRef → HandleKind
deriving DecidableEq

/-- The bare variant tag of a HandleKind. -/
inductive KindTag where
  | owned
  | borrowed
deriving DecidableEq

/-- Projects a HandleKind to its variant tag. -/
def HandleKind.tag : HandleKind → KindTag
  | .Owned _ => .owned
  | .Borrowed _ => .borrowed

/-- Models pub struct Handle (src/win.rs lines 48-52), extended with the
address of the Rust object so that the std::ptr::eq shortcut in
PartialEq can be expressed: distinct live Rust objects have distinct
addresses, and std::ptr::eq holds exactly when the addresses coincide. -/
structure Handle where
  addr : Nat
  kind : HandleKind
  key : Option Key

/-- Models impl PartialEq for Handle (src/win.rs lines 70-81): true when
the two references are the identical object; otherwise false when either
key is absent; otherwise structural comparison of the keys. -/
def Handle.beq (a b : Handle) : Bool :=
  if a.addr = b.addr then true
  else if a.key.isNone || b.key.isNone then false
  else decide (a.key = b.key)

/-- The words a Rust Hasher receives from Key (derived Hash,
src/win.rs line 62): the two u64 fields in order. -/
def keyHashWords (k : Key) : List Nat := [k.volume, k.index]

/-- The words a Rust Hasher receives from an Option of Key: the derived
Hash for Option writes the discriminant (0 for None, 1 for Some) and
then hashes the payload. -/
def optionKeyHashWords : Option Key → List Nat
  | none => [0]
  | some k => 1 :: keyHashWords k

/-- Models impl Hash for Handle (src/win.rs lines 101-105): hashes only
self.key. -/
def Handle.hashWords (h : Handle) : List Nat := optionKeyHashWords h.key

/-- Models winutil::HandleRef::from_raw_handle (src/win.rs lines 222-224):
wraps the raw handle in Some of a File. -/
def HandleRef.from_raw_handle (raw : Nat) : HandleRef := ⟨some ⟨raw⟩⟩

/-- Models winutil::Handle::from_file (src/win.rs lines 174-176). -/
def WHandle.from_file (f : FileT) : WHandle := ⟨f⟩

/-- Models winutil::Handle::from_path (src/win.rs lines 178-189): the
outcome of the OS open (with FILE_FLAG_BACKUP_SEMANTICS) is a parameter,
an open failure is propagated by the question-mark operator. -/
def WHandle.from_path (openResult : Except Nat FileT) : Except Nat WHandle :=
  match openResult with
  | Except.error e => Except.error e
  | Except.ok f => Except.ok ⟨f⟩

/-- Models Handle::from_handle (src/win.rs lines 116-119): extracts the
key with winutil::information, propagating its failure; on success the
handle is Owned with the key present. -/
def Handle.from_handle (addr : Nat) (h : WHandle) (os : List QueryResult) :
    Except Nat Handle × List QueryResult :=
  match information os with
  | (Except.error e, os') => (Except.error e, os')
  | (Except.ok key, os') => (Except.ok ⟨addr, HandleKind.Owned h, some key⟩, os')

/-- Models Handle::from_path (src/win.rs lines 108-110). -/
def Handle.from_path (addr : Nat) (openResult : Except Nat FileT)
    (os : List QueryResult) : Except Nat Handle × List QueryResult :=
  match WHandle.from_path openResult with
  | Except.error e => (Except.error e, os)
  | Except.ok wh => Handle.from_handle addr wh os

/-- Models Handle::from_file (src/win.rs lines 112-114). -/
def Handle.from_file (addr : Nat) (f : FileT) (os : List QueryResult) :
    Except Nat Handle × List QueryResult :=
  Handle.from_handle addr (WHandle.from_file f) os

/-- Models Handle::from_std_handle (src/win.rs lines 121-131): attempts
key extraction, but a failure is swallowed and yields a Borrowed handle
with key set to None; an extraction success yields a Borrowed handle with
the key present. Construction itself never fails. -/
def Handle.from_std_handle (addr : Nat) (h : HandleRef)
    (os : List QueryResult) : Except Nat Handle × List QueryResult :=
  match information os with
  | (Except.ok key, os') =>
    (Except.ok ⟨addr, HandleKind.Borrowed h, some key⟩, os')
  | (Except.error _, os') =>
    (Except.ok ⟨addr, HandleKind.Borrowed h, none⟩, os')

/-- Models Handle::stdin (src/win.rs lines 133-135); the raw handle of the
process standard input stream is a parameter. -/
def Handle.stdin (addr stdinRaw : Nat) (os : List QueryResult) :
    Except Nat Handle × List QueryResult :=
  Handle.from_std_handle addr (HandleRef.from_raw_handle stdinRaw) os

/-- Models Handle::stdout (src/win.rs lines 137-139). -/
def Handle.stdout (addr stdoutRaw : Nat) (os : List QueryResult) :
    Except Nat Handle × List QueryResult :=
  Handle.from_std_handle addr (HandleRef.from_raw_handle stdoutRaw) os

/-- Models Handle::stderr (src/win.rs lines 141-143). -/
def Handle.stderr (addr stderrRaw : Nat) (os : List QueryResult) :
    Except Nat Handle × List QueryResult :=
  Handle.from_std_handle addr (HandleRef.from_raw_handle stderrRaw) os

/-- Models Handle::as_file (src/win.rs lines 145-150), composed with the
inner as_file of each variant; the Borrowed variant unwraps its Option, so
the result is partial on an already-taken HandleRef and total otherwise. -/
def Handle.as_file (h : Handle) : Option FileT :=
  match h.kind with
  | .Owned wh => some wh.file
  | .Borrowed r => r.file

/-- Models Handle::as_file_mut (src/win.rs lines 152-157) as a lens: the
caller receives mutable access to the inner File only, expressed by an
update function applied through the wrapper; kind tag, key and identity
are untouched. The Borrowed variant unwraps its Option (as_mut().unwrap()),
modelled by the error case. -/
def Handle.as_file_mut (h : Handle) (f : FileT → FileT) :
    Except Unit Handle :=
  match h.kind with
  | .Owned wh =>
    Except.ok ⟨h.addr, HandleKind.Owned ⟨f wh.file⟩, h.key⟩
  | .Borrowed r =>
    match r.file with
    | some x => Except.ok ⟨h.addr, HandleKind.Borrowed ⟨some (f x)⟩, h.key⟩
    | none => Except.error ()

/-- An OS call issued by destructor code. -/
inductive OsCall where
  | closeHandle : Nat → OsCall
deriving DecidableEq

/-- Models File::into_raw_handle: transfers the raw handle out of the File
without closing it; no OS call is issued. -/
def FileT.into_raw_handle (f : FileT) : Nat × List OsCall := (f.raw, [])

/-- Models impl Drop for HandleRef (src/win.rs lines 215-219):
self.0.take().unwrap().into_raw_handle(). The result is the emptied
wrapper, the raw handle released, and the OS calls issued; the error case
models the unwrap panic on an already-taken slot. -/
def HandleRef.dropRef (r : HandleRef) :
    Except Unit (HandleRef × Nat × List OsCall) :=
  match r.file with
  | none => Except.error ()
  | some f =>
    Except.ok (⟨none⟩, (FileT.into_raw_handle f).1, (FileT.into_raw_handle f).2)

/-- Models impl IntoRawHandle for HandleRef (src/win.rs lines 253-257):
self.0.take().unwrap().into_raw_handle(). -/
def HandleRef.into_raw_handle (r : HandleRef) :
    Except Unit (HandleRef × Nat × List OsCall) :=
  match r.file with
  | none => Except.error ()
  | some f =>
    Except.ok (⟨none⟩, (FileT.into_raw_handle f).1, (FileT.into_raw_handle f).2)

/-- C1: for every pair of Handles a and b, a == b holds exactly when a and
b are the identical object (same address), or both keys are present and
equal; and two distinct Handles with at least one absent key are never
equal. -/
theorem handle_eq_iff :
    (∀ a b : Handle, Handle.beq a b = true ↔
      (a.addr = b.addr ∨ (a.key.isSome ∧ b.key.isSome ∧ a.key = b.key)))
    ∧ (∀ a b : Handle, a.addr ≠ b.addr →
      (a.key = none ∨ b.key = none) → Handle.beq a b = false) := by
  constructor
  · intro a b
    unfold Handle.beq
    by_cases hp : a.addr = b.addr
    · simp [hp]
    · cases ha : a.key <;> cases hb : b.key <;> simp [hp, ha, hb]
  · intro a b hp hk
    unfold Handle.beq
    rcases hk with hk | hk <;> simp [hp, hk]

theorem handle_eq_iff_witness :
    Handle.beq ⟨0, HandleKind.Borrowed ⟨none⟩, none⟩
      ⟨1, HandleKind.Borrowed ⟨none⟩, none⟩ = false :=
  handle_eq_iff.2 _ _ (by decide) (Or.inl rfl)

/-- C6: equality of Handles is reflexive, including when the key is
absent: the address shortcut makes every Handle compare equal to
itself. -/
theorem handle_eq_refl : ∀ h : Handle, Handle.beq h h = true := by
  intro h
  simp [Handle.beq]

/-- C9: Handle equality is symmetric: the address check and the key
comparison are each symmetric. -/
theorem handle_eq_symm : ∀ a b : Handle, Handle.beq a b = Handle.beq b a := by
  intro a b
  unfold Handle.beq
  by_cases hp : a.addr = b.addr
  · rw [if_pos hp, if_pos hp.symm]
  · have hp' : ¬b.addr = a.addr := fun hh => hp hh.symm
    cases ha : a.key <;> cases hb : b.key <;> simp [hp, hp', ha, hb, eq_comm]

/-- C4: the hash of a Handle is derived solely from its optional key; the
hasher input for an absent key is a fixed sentinel distinct from the input
for any present key; and equal Handles hash equally, given the memory
soundness fact that address-equal Handles are the same object and hence
carry the same key. -/
theorem handle_hash_spec :
    (∀ a b : Handle, a.key = b.key → a.hashWords = b.hashWords)
    ∧ (∀ k : Key, optionKeyHashWords none ≠ optionKeyHashWords (some k))
    ∧ (∀ a b : Handle, (a.addr = b.addr → a.key = b.key) →
        Handle.beq a b = true → a.hashWords = b.hashWords) := by
  refine ⟨?_, ?_, ?_⟩
  · intro a b h
    simp [Handle.hashWords, h]
  · intro k
    simp [optionKeyHashWords]
  · intro a b hid h
    unfold Handle.beq at h
    by_cases hp : a.addr = b.addr
    · simp [Handle.hashWords, hid hp]
    · rw [if_neg hp] at h
      cases ha : a.key <;> cases hb : b.key <;> simp [ha, hb] at h
      simp [Handle.hashWords, ha, hb, h]

theorem handle_hash_spec_witness :
    Handle.beq ⟨0, HandleKind.Borrowed ⟨none⟩, some ⟨1, 2⟩⟩
        ⟨1, HandleKind.Borrowed ⟨none⟩, some ⟨1, 2⟩⟩ = true
    ∧ Handle.hashWords ⟨0, HandleKind.Borrowed ⟨none⟩, some ⟨1, 2⟩⟩
        = Handle.hashWords ⟨1, HandleKind.Borrowed ⟨none⟩, some ⟨1, 2⟩⟩ :=
  ⟨by decide, handle_hash_spec.2.2 _ _ (by decide) (by decide)⟩

/-- Helper: from_std_handle always succeeds with a Borrowed handle whose
key reflects the first OS response. -/
lemma from_std_handle_spec (addr : Nat) (r : HandleRef)
    (os : List QueryResult) :
    ∃ h : Handle, (Handle.from_std_handle addr r os).1 = Except.ok h
      ∧ h.kind.tag = KindTag.borrowed
      ∧ (∀ e rest, os = Except.error e :: rest → h.key = none)
      ∧ (∀ info rest, os = Except.ok info :: rest →
          h.key = some (mkKey info)) := by
  match os with
  | [] =>
    refine ⟨⟨addr, HandleKind.Borrowed r, none⟩, rfl, rfl, ?_, ?_⟩
    · intro e rest hh
      cases hh
    · intro info rest hh
      cases hh
  | Except.error e :: rest =>
    refine ⟨⟨addr, HandleKind.Borrowed r, none⟩, rfl, rfl, ?_, ?_⟩
    · intro e' rest' hh
      rfl
    · intro info rest' hh
      cases hh
  | Except.ok info :: rest =>
    refine ⟨⟨addr, HandleKind.Borrowed r, some (mkKey info)⟩, rfl, rfl, ?_, ?_⟩
    · intro e' rest' hh
      cases hh
    · intro info' rest' hh
      cases hh
      rfl

/-- C2: constructing a Handle via stdin, stdout or stderr never fails:
whatever the OS answers to the identity query, the result is Ok and
Borrowed; when the query fails the key is absent, when it succeeds the key
is present. -/
theorem std_construction_never_fails :
    ∀ (addr raw : Nat) (os : List QueryResult),
      (∃ h : Handle, (Handle.stdin addr raw os).1 = Except.ok h
        ∧ h.kind.tag = KindTag.borrowed
        ∧ (∀ e rest, os = Except.error e :: rest → h.key = none)
        ∧ (∀ info rest, os = Except.ok info :: rest →
            h.key = some (mkKey info)))
      ∧ (∃ h : Handle, (Handle.stdout addr raw os).1 = Except.ok h
        ∧ h.kind.tag = KindTag.borrowed
        ∧ (∀ e rest, os = Except.error e :: rest → h.key = none)
        ∧ (∀ info rest, os = Except.ok info :: rest →
            h.key = some (mkKey info)))
      ∧ (∃ h : Handle, (Handle.stderr addr raw os).1 = Except.ok h
        ∧ h.kind.tag = KindTag.borrowed
        ∧ (∀ e rest, os = Except.error e :: rest → h.key = none)
        ∧ (∀ info rest, os = Except.ok info :: rest →
            h.key = some (mkKey info))) := by
  intro addr raw os
  exact ⟨from_std_handle_spec addr (HandleRef.from_raw_handle raw) os,
    from_std_handle_spec addr (HandleRef.from_raw_handle raw) os,
    from_std_handle_spec addr (HandleRef.from_raw_handle raw) os⟩

theorem std_construction_never_fails_witness :
    ∃ h : Handle, (Handle.stdin 0 7 [Except.error 5]).1 = Except.ok h
      ∧ h.key = none := by
  obtain ⟨h, h1, _, h3, _⟩ := (std_construction_never_fails 0 7 [Except.error 5]).1
  exact ⟨h, h1, h3 5 [] rfl⟩

/-- C3: for from_path and from_file, a failure of the identity extraction
fails the whole construction with that error and produces no Handle; on
success the Handle is Owned with the key present, and exactly one OS query
is consumed at construction. -/
theorem owned_construction_spec :
    ∀ (addr : Nat) (f fl : FileT) (e : Nat) (info : FileInformation)
      (rest : List QueryResult),
      Handle.from_file addr f (Except.error e :: rest) = (Except.error e, rest)
      ∧ (∃ h : Handle,
          Handle.from_file addr f (Except.ok info :: rest) = (Except.ok h, rest)
          ∧ h.kind.tag = KindTag.owned ∧ h.key = some (mkKey info))
      ∧ Handle.from_path addr (Except.ok fl) (Except.error e :: rest)
          = (Except.error e, rest)
      ∧ (∃ h : Handle,
          Handle.from_path addr (Except.ok fl) (Except.ok info :: rest)
            = (Except.ok h, rest)
          ∧ h.kind.tag = KindTag.owned ∧ h.key = some (mkKey info)) := by
  intro addr f fl e info rest
  exact ⟨rfl,
    ⟨⟨addr, HandleKind.Owned ⟨f⟩, some (mkKey info)⟩, rfl, rfl, rfl⟩,
    rfl,
    ⟨⟨addr, HandleKind.Owned ⟨fl⟩, some (mkKey info)⟩, rfl, rfl, rfl⟩⟩

/-- Helper: shifting left by 32 and or-ing with a value below 2^32 is the
same as multiplying by 2^32 and adding. -/
lemma shiftLeft32_lor_eq_add (a b : Nat) (hb : b < 2 ^ 32) :
    (a <<< 32) ||| b = a * 2 ^ 32 + b := by
  rw [Nat.shiftLeft_eq, Nat.mul_comm a (2 ^ 32), ← Nat.mul_add_lt_is_or hb a,
    Nat.mul_comm (2 ^ 32) a]

/-- C5: the identity extractor consumes exactly one OS query response per
call; on failure it returns the OS error code unchanged; on success it
returns a key whose volume is the 32-bit volume serial number and whose
index combines the high index part shifted left 32 bits with the low part,
that is high * 2^32 + low. -/
theorem information_spec :
    ∀ (e : Nat) (info : FileInformation) (rest : List QueryResult),
      information (Except.error e :: rest) = (Except.error e, rest)
      ∧ (information (Except.ok info :: rest)).2 = rest
      ∧ ∃ k : Key, (information (Except.ok info :: rest)).1 = Except.ok k
          ∧ k.volume = info.dwVolumeSerialNumber % U32
          ∧ k.index = (info.nFileIndexHigh % U32) * 2 ^ 32
              + info.nFileIndexLow % U32 := by
  intro e info rest
  refine ⟨rfl, rfl, mkKey info, rfl, rfl, ?_⟩
  have hb : info.nFileIndexLow % U32 < 2 ^ 32 :=
    Nat.mod_lt _ (by norm_num [U32])
  exact shiftLeft32_lor_eq_add _ _ hb

/-- C10: every key produced by the extractor has a volume strictly below
2^32, because the volume serial number is a zero-extended 32-bit value. -/
theorem information_volume_lt :
    ∀ (info : FileInformation) (rest : List QueryResult) (k : Key),
      (information (Except.ok info :: rest)).1 = Except.ok k →
      k.volume < 2 ^ 32 := by
  intro info rest k hk
  have h : mkKey info = k := by
    simpa [information] using hk
  subst h
  show info.dwVolumeSerialNumber % U32 < 2 ^ 32
  exact Nat.mod_lt _ (by norm_num [U32])

theorem information_volume_lt_witness :
    (information [Except.ok ⟨5, 6, 7⟩]).1 = Except.ok (mkKey ⟨5, 6, 7⟩)
    ∧ (mkKey ⟨5, 6, 7⟩).volume < 2 ^ 32 :=
  ⟨rfl, information_volume_lt ⟨5, 6, 7⟩ [] _ rfl⟩

/-- C7: destroying a well-formed Borrowed wrapper empties its ownership
slot (the file is relinquished), returns the raw OS handle exactly once,
and issues no close call; the explicit IntoRawHandle release path behaves
the same way. -/
theorem borrowed_drop_no_close :
    ∀ f : FileT,
      HandleRef.dropRef ⟨some f⟩ = Except.ok (⟨none⟩, f.raw, [])
      ∧ HandleRef.into_raw_handle ⟨some f⟩ = Except.ok (⟨none⟩, f.raw, [])
      ∧ ∀ raw : Nat, HandleRef.dropRef (HandleRef.from_raw_handle raw)
          = Except.ok (⟨none⟩, raw, []) := by
  intro f
  exact ⟨rfl, rfl, fun raw => rfl⟩

/-- C8: no operation on a constructed Handle changes its variant tag or
its key: equality, hashing and as_file are pure functions of the Handle,
and mutable access to the inner file through as_file_mut preserves the
address, the variant tag and the key. -/
theorem handle_immutable :
    ∀ (h : Handle) (f : FileT → FileT) (h' : Handle),
      Handle.as_file_mut h f = Except.ok h' →
      h'.addr = h.addr ∧ h'.kind.tag = h.kind.tag ∧ h'.key = h.key := by
  intro h f h' hm
  cases hk : h.kind with
  | Owned wh =>
    simp [Handle.as_file_mut, hk] at hm
    rw [← hm]
    exact ⟨rfl, by simp [hk, HandleKind.tag], rfl⟩
  | Borrowed r =>
    cases hf : r.file with
    | none => simp [Handle.as_file_mut, hk, hf] at hm
    | some x =>
      simp [Handle.as_file_mut, hk, hf] at hm
      rw [← hm]
      exact ⟨rfl, by simp [hk, HandleKind.tag], rfl⟩

theorem handle_immutable_witness :
    Handle.as_file_mut ⟨3, HandleKind.Owned ⟨⟨9⟩⟩, none⟩ (fun _ => ⟨4⟩)
      = Except.ok ⟨3, HandleKind.Owned ⟨⟨4⟩⟩, none⟩
    ∧ (⟨3, HandleKind.Owned ⟨⟨4⟩⟩, none⟩ : Handle).key
      = (⟨3, HandleKind.Owned ⟨⟨9⟩⟩, none⟩ : Handle).key :=
  ⟨rfl, (handle_immutable ⟨3, HandleKind.Owned ⟨⟨9⟩⟩, none⟩ (fun _ => ⟨4⟩)
    ⟨3, HandleKind.Owned ⟨⟨4⟩⟩, none⟩ rfl).2.2⟩

end SameFile
